import Mathlib

/-!
Verification of the Completion Scoring & Aggregation Engine of the
eSanjeevani consultation-report application (`src/app.py`).

The engine's Python code is shallowly embedded below: Python cell values
become the inductive type `CellVal`; pandas rows and dataframes become
association lists and a `DataFrame` structure; functions that mutate their
dataframe argument return the post-call state of that argument explicitly;
code that may raise an exception is modelled with `Except`, and the
`try/except` wrappers of the source are modelled by matching on the
`Except` result.  Python string primitives used by the code (`str.split`,
`int(...)`, `in`, `str.lower`, `%02d` formatting) are modelled by
executable functions on `List Char`.
-/

deriving instance DecidableEq for Except

namespace Consultation

/-! ## Python string primitives, modelled on `List Char` -/

/-- Split a character list on a single separator character, keeping empty
pieces, as Python `str.split(sep)` does for a one-character separator. -/
def splitCh (sep : Char) : List Char → List (List Char)
  | [] => [[]]
  | c :: rest =>
    let r := splitCh sep rest
    if c = sep then [] :: r
    else
      match r with
      | [] => [[c]]
      | h :: t => (c :: h) :: t

/-- Python `str.split(sep)` for a one-character separator. -/
def pySplit (s : String) (sep : Char) : List String :=
  (splitCh sep s.data).map (fun cs => String.mk cs)

/-- Whitespace recognised by Python `int(...)` stripping. -/
def isPySpace (c : Char) : Bool :=
  c = ' ' ∨ c = '\t' ∨ c = '\n' ∨ c = '\r'

/-- Strip leading and trailing whitespace, as Python `int(...)` does to its
argument before parsing. -/
def trimBoth (l : List Char) : List Char :=
  ((l.dropWhile isPySpace).reverse.dropWhile isPySpace).reverse

/-- Value of a decimal digit character. -/
def digitVal (c : Char) : Option Nat :=
  if '0' ≤ c ∧ c ≤ '9' then some (c.toNat - 48) else none

def digitsToNatAux : List Char → Nat → Option Nat
  | [], acc => some acc
  | c :: rest, acc =>
    match digitVal c with
    | some d => digitsToNatAux rest (acc * 10 + d)
    | none => none

/-- Parse a non-empty all-digit character list as a natural number. -/
def digitsToNat : List Char → Option Nat
  | [] => none
  | l => digitsToNatAux l 0

/-- Python `int(s)` on a string: optional surrounding whitespace, an
optional sign, then decimal digits.  A failure models the raised
`ValueError`, carrying the CPython message (digit-group underscores and
non-ASCII digits accepted by CPython are not modelled).  -/
def pyIntParse (s : String) : Except String Int :=
  let t := trimBoth s.data
  let core : List Char :=
    match t with
    | '-' :: rest => rest
    | '+' :: rest => rest
    | _ => t
  let sign : Int :=
    match t with
    | '-' :: _ => -1
    | _ => 1
  match digitsToNat core with
  | some n => .ok (sign * n)
  | none => .error ("invalid literal for int() with base 10: \x27" ++ s ++ "\x27")

/-- Is `pat` a leading segment of the second list? -/
def leadsCh : List Char → List Char → Bool
  | [], _ => true
  | _ :: _, [] => false
  | a :: as, b :: bs => a = b && leadsCh as bs

/-- Substring containment on character lists. -/
def containsCh (pat : List Char) : List Char → Bool
  | [] => leadsCh pat []
  | c :: rest => leadsCh pat (c :: rest) || containsCh pat rest

/-- Python `pat in s` substring test. -/
def pyContains (s pat : String) : Bool :=
  containsCh pat.data s.data

/-- ASCII lower-casing of one character (the case-insensitive search of the
source only ever receives ASCII identifiers and names). -/
def asciiLower (c : Char) : Char :=
  if 'A' ≤ c ∧ c ≤ 'Z' then Char.ofNat (c.toNat + 32) else c

/-- Python `str.lower()`, restricted to ASCII case mapping. -/
def pyLower (s : String) : String :=
  String.mk (s.data.map asciiLower)

/-- Python `f"{n:02d}"` on a natural number. -/
def pad2Nat (n : Nat) : String :=
  if n < 10 then "0" ++ toString n else toString n

/-- Python `f"{n:02d}"` on an integer. -/
def pad2Int (n : Int) : String :=
  if 0 ≤ n ∧ n < 10 then "0" ++ toString n else toString n

/-! ## Python cell values

One cell of the input dataset: Python `None`, a float `NaN` (also standing
for pandas `NaT`), a string, a `datetime.time` value, an integer, or a
parsed timestamp.  Timestamps are modelled by their date encoded as the
integer `year·10000 + month·100 + day`, which is chronologically ordered
for valid dates. -/

inductive CellVal where
  | pyNone
  | nan
  | str (s : String)
  | timeOfDay (h m s : Nat)
  | intVal (n : Int)
  | dateVal (d : Int)
  deriving DecidableEq

/-- pandas `pd.isna` on a cell value: true exactly for `None`, `NaN`
(and `NaT`). -/
def pdIsna : CellVal → Bool
  | .pyNone => true
  | .nan => true
  | _ => false

/-- pandas `pd.isna` applied to a Python `str` value: always `False`.
The source applies `pd.isna` to an already-stringified value, so this
constant models that (never-firing) check faithfully. -/
def pdIsnaStr (_ : String) : Bool := false

/-- Python `str(...)` of a cell value.  `datetime.time` is not stringified
by the parser (it uses `strftime`), but `str` of a time gives the same
`HH:MM:SS` text.  A timestamp renders as its date part followed by a
midnight time, modelled with the integer date encoding. -/
def pyStrOf : CellVal → String
  | .pyNone => "None"
  | .nan => "nan"
  | .str s => s
  | .timeOfDay h m s => pad2Nat h ++ ":" ++ pad2Nat m ++ ":" ++ pad2Nat s
  | .intVal n => toString n
  | .dateVal d => toString d ++ " 00:00:00"

/-- Python `isinstance(v, datetime.time)`. -/
def isTimeInstance : CellVal → Bool
  | .timeOfDay _ _ _ => true
  | _ => false

/-- Python `v != ''` on a non-null cell value: false only for the empty
string (a number, time or timestamp never equals a string). -/
def pyNeEmptyStr : CellVal → Bool
  | .str s => s ≠ ""
  | _ => true

/-! ## Time Parser (`parse_hh_mm_ss`, src/app.py lines 230-253) -/

/-- The bounds check and success result shared by the two- and three-part
branches of `parse_hh_mm_ss` (src/app.py lines 248-251). -/
def validateTimeValues (hours minutes seconds : Int) (time_str : String) :
    Option Int × Option String :=
  if hours < 0 ∨ minutes < 0 ∨ seconds < 0 ∨ 60 ≤ minutes ∨ 60 ≤ seconds then
    (none, some ("Invalid time values: " ++ time_str))
  else
    (some (hours * 3600 + minutes * 60 + seconds), none)

/-- The `try`-block body of `parse_hh_mm_ss`.  An `Except.error` models a
raised exception (only `int(...)` can raise on this input domain); the
message is the CPython `ValueError` text.  Note the empty/NaN check of the
source tests `pd.isna(time_str)` on the *stringified* value, which is
always false: only the literal empty string reaches that branch. -/
def parse_hh_mm_ss_body (time_input : CellVal) :
    Except String (Option Int × Option String) :=
  let time_str := pyStrOf time_input
  if !isTimeInstance time_input && (pdIsnaStr time_str || time_str == "") then
    .ok (none, some "Empty or NaN")
  else
    match pySplit time_str ':' with
    | [a, b] =>
      match pyIntParse a with
      | .error e => .error e
      | .ok minutes =>
        match pyIntParse b with
        | .error e => .error e
        | .ok seconds => .ok (validateTimeValues 0 minutes seconds time_str)
    | [a, b, c] =>
      match pyIntParse a with
      | .error e => .error e
      | .ok hours =>
        match pyIntParse b with
        | .error e => .error e
        | .ok minutes =>
          match pyIntParse c with
          | .error e => .error e
          | .ok seconds => .ok (validateTimeValues hours minutes seconds time_str)
    | _ => .ok (none, some ("Invalid format: " ++ time_str))

/-- `parse_hh_mm_ss`: the `try/except` wrapper returns the body's result,
and converts any raised exception into `(None, "Error parsing ...")`
(src/app.py lines 252-253). -/
def parse_hh_mm_ss (time_input : CellVal) : Option Int × Option String :=
  match parse_hh_mm_ss_body time_input with
  | .ok r => r
  | .error e => (none, some ("Error parsing " ++ pyStrOf time_input ++ ": " ++ e))

/-! ## Rows and dataframes -/

/-- One row of the dataset: an association list from column name to cell
value.  pandas `row.get(field)` returns Python `None` when the label is
absent, and `row.get(field, default)` returns the default. -/
abbrev Row := List (String × CellVal)

/-- `row.get(field)`: the cell value, or Python `None` when absent. -/
def rowGet (row : Row) (field : String) : CellVal :=
  (row.lookup field).getD .pyNone

/-- `row.get(field, default)`. -/
def rowGetD (row : Row) (field : String) (dflt : CellVal) : CellVal :=
  (row.lookup field).getD dflt

/-- A pandas dataframe: a column schema plus a list of rows.  Accessing a
column absent from the schema raises a `KeyError`. -/
structure DataFrame where
  cols : List String
  rows : List Row
  deriving DecidableEq

/-! ## Completeness Scorer (`calculate_completion_score`, src/app.py
lines 267-304) -/

/-- The rubric hard-coded inside `calculate_completion_score`
(src/app.py lines 275-284). -/
def fields_to_check : List String :=
  ["PatientName", "Age", "GenderDisplay", "ConsultationCreatedDate",
   "ConsultationStatus", "Symptoms_", "Provisional Diagnosis", "Advice"]

/-- The marker substring of the malformed-`Symptoms_` special case. -/
def aliasMarker : String := "\"Alias\""

/-- Does one field of the row count as filled?  Mirrors the branch
structure of the loop body (src/app.py lines 286-298): `pd.isna` first,
then the malformed-`Symptoms_` marker special case, then `value != ''`.
The two filled branches both add to the score and to `filled_fields`, so
they collapse to `true` here. -/
def fieldMark (row : Row) (field : String) : Bool :=
  let value := rowGet row field
  if pdIsna value then false
  else if field == "Symptoms_" &&
      (match value with | .str s => pyContains s aliasMarker | _ => false) then
    true
  else pyNeEmptyStr value

/-- The scorer's loop over the rubric, returning
`(score, filled_fields, missing_fields)` in iteration order. -/
def scoreFields (row : Row) : List String → Nat × List String × List String
  | [] => (0, [], [])
  | f :: rest =>
    let r := scoreFields row rest
    if fieldMark row f then (r.1 + 1, f :: r.2.1, r.2.2)
    else (r.1, r.2.1, f :: r.2.2)

/-- Round half to even, as Python `round` does. -/
def roundHalfEven (q : ℚ) : ℤ :=
  let f := q.floor
  if q - f < 1 / 2 then f
  else if 1 / 2 < q - f then f + 1
  else if f % 2 = 0 then f else f + 1

/-- Python `round(x, 2)`.  The scorer only ever rounds exact multiples of
`12.5`, on which binary floating point is exact, so the rational model is
faithful. -/
def pyRound2 (q : ℚ) : ℚ :=
  (roundHalfEven (q * 100) : ℚ) / 100

/-- `(score / total_fields) * 100 if total_fields > 0 else 0`
(src/app.py line 301). -/
def completionPercentage (score total_fields : Nat) : ℚ :=
  if 0 < total_fields then ((score : ℚ) / total_fields) * 100 else 0

/-- `((total_fields - score) / total_fields) * 100 if total_fields > 0
else 0` (src/app.py line 303). -/
def missingPercentage (score total_fields : Nat) : ℚ :=
  if 0 < total_fields then (((total_fields : ℚ) - score) / total_fields) * 100 else 0

/-- `calculate_completion_score(row)`: returns
`(round(completion_percentage, 2), filled_fields, missing_fields,
round(missing_percentage, 2), fields_to_check)`.  The rubric and
`total_fields = 8` are constants inside the function; it takes only the
row. -/
def calculate_completion_score (row : Row) :
    ℚ × List String × List String × ℚ × List String :=
  let total_fields := 8
  let r := scoreFields row fields_to_check
  (pyRound2 (completionPercentage r.1 total_fields), r.2.1, r.2.2,
   pyRound2 (missingPercentage r.1 total_fields), fields_to_check)

/-- Variant of `fieldMark` with the malformed-`Symptoms_` special case
removed: a field is filled iff its value is present and not the empty
string (the claim C10 comparison point). -/
def fieldMarkNoAlias (row : Row) (field : String) : Bool :=
  let value := rowGet row field
  if pdIsna value then false
  else pyNeEmptyStr value

/-- The scorer's loop with the special case removed. -/
def scoreFieldsNoAlias (row : Row) : List String → Nat × List String × List String
  | [] => (0, [], [])
  | f :: rest =>
    let r := scoreFieldsNoAlias row rest
    if fieldMarkNoAlias row f then (r.1 + 1, f :: r.2.1, r.2.2)
    else (r.1, r.2.1, f :: r.2.2)

/-- `calculate_completion_score` with the `Symptoms_` special-case branch
removed, otherwise identical. -/
def calculate_completion_score_noalias (row : Row) :
    ℚ × List String × List String × ℚ × List String :=
  let total_fields := 8
  let r := scoreFieldsNoAlias row fields_to_check
  (pyRound2 (completionPercentage r.1 total_fields), r.2.1, r.2.2,
   pyRound2 (missingPercentage r.1 total_fields), fields_to_check)

/-! ## Record Filters (`filter_by_date_range`,
`filter_by_patient_search`, src/app.py lines 330-351) -/

/-- Model of `pd.to_datetime(s)` restricted to ISO `YYYY-MM-DD` date
strings (the only textual form relevant here); anything else fails.  A
successful parse is encoded as `year·10000 + month·100 + day`. -/
def parseDateStr (s : String) : Option Int :=
  match pySplit s '-' with
  | [y, m, d] =>
    match digitsToNat y.data, digitsToNat m.data, digitsToNat d.data with
    | some yn, some mn, some dn =>
      if 1 ≤ mn ∧ mn ≤ 12 ∧ 1 ≤ dn ∧ dn ≤ 31 then
        some ((yn : Int) * 10000 + mn * 100 + dn)
      else none
    | _, _, _ => none
  | _ => none

/-- Elementwise `pd.to_datetime(·, errors='coerce')`: existing timestamps
pass through, parseable date strings become timestamps, everything else
(including `None`/`NaN`) coerces to `NaT` (modelled as `nan`).  Numeric
epoch interpretation is not modelled. -/
def to_datetime_coerce : CellVal → CellVal
  | .dateVal d => .dateVal d
  | .str s =>
    match parseDateStr s with
    | some d => .dateVal d
    | none => .nan
  | _ => .nan

/-- The in-place column assignment
`df['ConsultationCreatedDate'] = pd.to_datetime(...)` applied to one row. -/
def coerceDateRow (r : Row) : Row :=
  r.map (fun p =>
    if p.1 = "ConsultationCreatedDate" then (p.1, to_datetime_coerce p.2) else p)

/-- The date-range mask on one (already coerced) row:
`(date >= start) & (date <= end)`.  `NaT` compares false on both sides, so
unparseable timestamps never match. -/
def dateInRange (r : Row) (start_date end_date : Int) : Bool :=
  match rowGet r "ConsultationCreatedDate" with
  | .dateVal d => start_date ≤ d && d ≤ end_date
  | _ => false

/-- The `try`-block body of `filter_by_date_range`.  Reading the
`ConsultationCreatedDate` column of a frame lacking it raises `KeyError`
(modelled as `Except.error` with the CPython `str(KeyError)` text); the
raise happens before the column assignment, so the source frame is then
untouched. On success the body returns the post-assignment source frame
(the column was overwritten in place) together with the filtered frame. -/
def filter_by_date_range_body (df : DataFrame) (start_date end_date : Int) :
    Except String (DataFrame × DataFrame) :=
  if "ConsultationCreatedDate" ∈ df.cols then
    let coerced : DataFrame := { cols := df.cols, rows := df.rows.map coerceDateRow }
    .ok (coerced,
         { cols := coerced.cols,
           rows := coerced.rows.filter (fun r => dateInRange r start_date end_date) })
  else
    .error "\x27ConsultationCreatedDate\x27"

/-- `filter_by_date_range(df, start_date, end_date)`: returns the
post-call state of the source frame, the returned frame, and the warnings
shown via `st.error`.  The `except` branch returns the original frame and
surfaces the error (src/app.py lines 336-338). -/
def filter_by_date_range (df : DataFrame) (start_date end_date : Int) :
    DataFrame × DataFrame × List String :=
  match filter_by_date_range_body df start_date end_date with
  | .ok (src, res) => (src, res, [])
  | .error e => (df, df, ["Error filtering by date: " ++ e])

/-- One row's case-insensitive substring match for the patient search:
`astype(str).str.contains(query, case=False, na=False)` (the query is
treated as a literal pattern; regular-expression metacharacters are not
modelled). -/
def rowMatchesQuery (r : Row) (col query : String) : Bool :=
  pyContains (pyLower (pyStrOf (rowGet r col))) (pyLower query)

/-- The `try`-block body of `filter_by_patient_search`: filter on
`PatientId` when the id query is non-empty, then on `PatientName` when the
name query is non-empty; accessing a missing column raises `KeyError`. -/
def filter_by_patient_search_body (df : DataFrame)
    (patient_id patient_name : String) : Except String DataFrame :=
  let step1 : Except String DataFrame :=
    if patient_id ≠ "" then
      if "PatientId" ∈ df.cols then
        .ok { cols := df.cols,
              rows := df.rows.filter (fun r => rowMatchesQuery r "PatientId" patient_id) }
      else .error "\x27PatientId\x27"
    else .ok df
  match step1 with
  | .error e => .error e
  | .ok f1 =>
    if patient_name ≠ "" then
      if "PatientName" ∈ f1.cols then
        .ok { cols := f1.cols,
              rows := f1.rows.filter (fun r => rowMatchesQuery r "PatientName" patient_name) }
      else .error "\x27PatientName\x27"
    else .ok f1

/-- `filter_by_patient_search(df, patient_id, patient_name)`: the
filtered frame and the warnings shown via `st.error`; the `except` branch
returns the original input frame (src/app.py lines 349-351).  This
function never assigns into its argument, so no source state is passed
back. -/
def filter_by_patient_search (df : DataFrame) (patient_id patient_name : String) :
    DataFrame × List String :=
  match filter_by_patient_search_body df patient_id patient_name with
  | .ok r => (r, [])
  | .error e => (df, ["Error filtering by patient search: " ++ e])

/-! ## Aggregator (`calculate_average_consultation_time`, src/app.py
lines 306-328) -/

/-- The row loop of `calculate_average_consultation_time`: accumulate
`(total_seconds, valid_count, error_messages)` over the rows, in order.
`i` is the positional index of the first row (the source uses
`row.name + 2`, the spreadsheet row number under a default integer
index). -/
def avgTimeLoop : List Row → Nat → Int × Nat × List String
  | [], _ => (0, 0, [])
  | r :: rest, i =>
    let acc := avgTimeLoop rest (i + 1)
    match parse_hh_mm_ss (rowGetD r "HH_MM_SS" (.str "")) with
    | (some s, _) => (acc.1 + s, acc.2.1 + 1, acc.2.2)
    | (none, some e) =>
      (acc.1, acc.2.1, ("Row " ++ toString (i + 2) ++ ": " ++ e) :: acc.2.2)
    | (none, none) => acc

/-- `calculate_average_consultation_time(df)`: returns the formatted
average duration, the count of successfully parsed rows, and the error
messages.  Floating-point `//`/`%`/`int(...)` on the non-negative average
are modelled by rational floor arithmetic. -/
def calculate_average_consultation_time (df : DataFrame) :
    String × Nat × List String :=
  let acc := avgTimeLoop df.rows 0
  let total_seconds := acc.1
  let valid_count := acc.2.1
  let error_messages := acc.2.2
  if 0 < valid_count then
    let avg_seconds : ℚ := (total_seconds : ℚ) / (valid_count : ℚ)
    let minutes : Int := (avg_seconds / 60).floor
    let seconds : Int := (avg_seconds - 60 * (minutes : ℚ)).floor
    (pad2Int minutes ++ ":" ++ pad2Int seconds, valid_count, error_messages)
  else
    ("00:00", valid_count,
     error_messages ++ ["No valid time entries found in HH_MM_SS column."])

/-! ## Specification-side definitions and concrete data for witnesses -/

/-- The parsed seconds of the rows whose duration parse succeeded, in row
order (the population the average is specified over). -/
def successSeconds (rows : List Row) : List Int :=
  rows.filterMap (fun r => (parse_hh_mm_ss (rowGetD r "HH_MM_SS" (.str ""))).1)

/-- A record with one filled rubric field. -/
def rowOneFilled : Row := [("PatientName", .str "Asha")]

/-- A frame whose date column still holds a raw (uncoerced) date string. -/
def dfRawDate : DataFrame :=
  { cols := ["ConsultationCreatedDate"],
    rows := [[("ConsultationCreatedDate", .str "2025-07-17")]] }

/-- A frame whose date column is already coerced to a timestamp. -/
def dfCoercedDate : DataFrame :=
  { cols := ["ConsultationCreatedDate"],
    rows := [[("ConsultationCreatedDate", .dateVal 20250717)]] }

/-- A frame lacking the date and patient columns. -/
def dfNoSuchCols : DataFrame := { cols := ["X"], rows := [] }

/-- A frame with a single 90-minute consultation. -/
def dfNinety : DataFrame :=
  { cols := ["HH_MM_SS"], rows := [[("HH_MM_SS", .str "1:30:00")]] }

/-! ## Helper lemmas -/

/-- The scorer's loop computes the filled/missing lists as the two
complementary filters of the rubric, and the score as the filled count. -/
theorem scoreFields_eq (row : Row) (fs : List String) :
    scoreFields row fs =
      ((fs.filter (fieldMark row)).length, fs.filter (fieldMark row),
       fs.filter (fun f => !fieldMark row f)) := by
  induction fs with
  | nil => rfl
  | cons f rest ih =>
    simp only [scoreFields, ih, List.filter_cons]
    cases h : fieldMark row f <;> simp [h]

/-- Complementary filters split every element's multiplicity. -/
theorem count_filter_partition (p : String → Bool) (l : List String) (a : String) :
    (l.filter p).count a + (l.filter (fun x => !p x)).count a = l.count a := by
  by_cases hp : p a
  · have h1 : (l.filter p).count a = l.count a := List.count_filter hp
    have h2 : (l.filter (fun x => !p x)).count a = 0 :=
      List.count_eq_zero.mpr (fun hc => by simpa [hp] using (List.mem_filter.mp hc).2)
    omega
  · have h1 : (l.filter p).count a = 0 :=
      List.count_eq_zero.mpr (fun hc => hp (by simpa using (List.mem_filter.mp hc).2))
    have h2 : (l.filter (fun x => !p x)).count a = l.count a :=
      List.count_filter (by simpa using hp)
    omega

/-- Unfolded form of `calculate_completion_score`. -/
theorem calculate_completion_score_eq (row : Row) :
    calculate_completion_score row =
      (pyRound2 (completionPercentage (fields_to_check.filter (fieldMark row)).length 8),
       fields_to_check.filter (fieldMark row),
       fields_to_check.filter (fun g => !fieldMark row g),
       pyRound2 (missingPercentage (fields_to_check.filter (fieldMark row)).length 8),
       fields_to_check) := by
  simp [calculate_completion_score, scoreFields_eq]

/-! ## Claim C1 -/

/-- C1: for every input record, the filled-field and missing-field lists
returned by `calculate_completion_score` partition the rubric exactly:
both are sublists of the rubric (hence preserve its order), together they
preserve every multiplicity of the (duplicate-free) rubric, every rubric
field lands in exactly one of them, and no field outside the rubric
appears in either. -/
theorem c1_rubric_partition (row : Row) (f : String) :
    ((calculate_completion_score row).2.1).Sublist fields_to_check ∧
    ((calculate_completion_score row).2.2.1).Sublist fields_to_check ∧
    ((calculate_completion_score row).2.1.count f
        + (calculate_completion_score row).2.2.1.count f
        = fields_to_check.count f) ∧
    fields_to_check.Nodup ∧
    (f ∈ fields_to_check →
      (f ∈ (calculate_completion_score row).2.1 ∧
         f ∉ (calculate_completion_score row).2.2.1) ∨
      (f ∉ (calculate_completion_score row).2.1 ∧
         f ∈ (calculate_completion_score row).2.2.1)) ∧
    ((f ∈ (calculate_completion_score row).2.1 ∨
        f ∈ (calculate_completion_score row).2.2.1) →
      f ∈ fields_to_check) := by
  rw [calculate_completion_score_eq row]
  dsimp only
  refine ⟨List.filter_sublist _, List.filter_sublist _,
    count_filter_partition _ _ _, by decide, ?_, ?_⟩
  · intro hf
    by_cases hp : fieldMark row f
    · exact Or.inl ⟨List.mem_filter.mpr ⟨hf, hp⟩,
        fun hc => by simpa [hp] using (List.mem_filter.mp hc).2⟩
    · exact Or.inr ⟨fun hc => hp (by simpa using (List.mem_filter.mp hc).2),
        List.mem_filter.mpr ⟨hf, by simpa using hp⟩⟩
  · rintro (h | h) <;> exact List.mem_of_mem_filter h

/-- Witness for C1 at a concrete record and field. -/
theorem c1_rubric_partition_witness :
    "PatientName" ∈ fields_to_check ∧
    (("PatientName" ∈ (calculate_completion_score rowOneFilled).2.1 ∧
        "PatientName" ∉ (calculate_completion_score rowOneFilled).2.2.1) ∨
     ("PatientName" ∉ (calculate_completion_score rowOneFilled).2.1 ∧
        "PatientName" ∈ (calculate_completion_score rowOneFilled).2.2.1)) :=
  ⟨by decide,
   (c1_rubric_partition rowOneFilled "PatientName").2.2.2.2.1 (by decide)⟩

/-- `Rat.floor` agrees with the floor of the archimedean order. -/
theorem rat_floor_eq (q : ℚ) : q.floor = ⌊q⌋ := by
  rw [Rat.floor_def', Rat.floor_def]

/-- Rounding an integer is exact. -/
theorem roundHalfEven_intCast (z : ℤ) : roundHalfEven (z : ℚ) = z := by
  unfold roundHalfEven
  rw [rat_floor_eq, Int.floor_intCast]
  norm_num

/-- `pyRound2` on a value whose hundredfold is an integer divides that
integer back by 100. -/
theorem pyRound2_of_int (q : ℚ) (z : ℤ) (h : q * 100 = (z : ℚ)) :
    pyRound2 q = (z : ℚ) / 100 := by
  unfold pyRound2
  rw [h, roundHalfEven_intCast]

/-- The hundredfold of the completion percentage of `n` out of 8 fields is
the integer `1250·n`. -/
theorem completionPercentage_hundredfold (n : Nat) :
    completionPercentage n 8 * 100 = ((1250 * (n : Int) : Int) : ℚ) := by
  unfold completionPercentage
  rw [if_pos (by norm_num : (0:Nat) < 8)]
  push_cast
  ring

/-- The hundredfold of the missing percentage of `n` out of 8 fields is
the integer `1250·(8 − n)`. -/
theorem missingPercentage_hundredfold (n : Nat) :
    missingPercentage n 8 * 100 = ((1250 * (8 - (n : Int)) : Int) : ℚ) := by
  unfold missingPercentage
  rw [if_pos (by norm_num : (0:Nat) < 8)]
  push_cast
  ring

/-- The two independently rounded percentages sum to exactly 100 for the
8-field rubric, so their discrepancy is within 0.01. -/
theorem round_sum_bound (n : Nat) :
    |pyRound2 (completionPercentage n 8) + pyRound2 (missingPercentage n 8) - 100|
      ≤ 1 / 100 := by
  rw [pyRound2_of_int _ _ (completionPercentage_hundredfold n),
      pyRound2_of_int _ _ (missingPercentage_hundredfold n)]
  have h : ((1250 * (n : Int) : Int) : ℚ) / 100
      + ((1250 * (8 - (n : Int)) : Int) : ℚ) / 100 - 100 = 0 := by
    push_cast
    ring
  rw [h]
  norm_num

/-! ## Claim C2 -/

/-- C2: the scorer returns `percent = round(100·|filled|/|rubric|, 2)` and
`missing_percent = round(100·(|rubric|−|filled|)/|rubric|, 2)`, each
rounded to two decimals independently (their discrepancy never exceeds
0.01), and the percentage expressions yield 0 on an empty rubric. -/
theorem c2_percent_formulas (row : Row) (s : Nat) :
    (calculate_completion_score row).1
        = pyRound2 (100 * (((calculate_completion_score row).2.1).length : ℚ) / 8) ∧
    (calculate_completion_score row).2.2.2.1
        = pyRound2 (100 * (8 - (((calculate_completion_score row).2.1).length : ℚ)) / 8) ∧
    |(calculate_completion_score row).1
        + (calculate_completion_score row).2.2.2.1 - 100| ≤ 1 / 100 ∧
    completionPercentage s 0 = 0 ∧
    missingPercentage s 0 = 0 := by
  rw [calculate_completion_score_eq row]
  dsimp only
  have hle : (fields_to_check.filter (fieldMark row)).length ≤ 8 := by
    have h := List.length_filter_le (fieldMark row) fields_to_check
    simpa [fields_to_check] using h
  refine ⟨?_, ?_, ?_, by simp [completionPercentage], by simp [missingPercentage]⟩
  · congr 1
    unfold completionPercentage
    rw [if_pos (by norm_num : (0:Nat) < 8)]
    push_cast
    ring
  · congr 1
    unfold missingPercentage
    rw [if_pos (by norm_num : (0:Nat) < 8)]
    push_cast
    ring
  · exact round_sum_bound _

/-! ## Claim C6 -/

/-- C6 (amended): the scorer does not take the rubric as an input — it
scores every record against the fixed 8-field list `fields_to_check`
hard-coded inside it, which it also returns as its fifth component. -/
theorem c6_amended_rubric_hardcoded (row : Row) :
    (calculate_completion_score row).2.2.2.2 = fields_to_check ∧
    fields_to_check.length = 8 :=
  ⟨rfl, rfl⟩

/-- Counterexample to C6 as stated: at a concrete record the scorer's
rubric is the hard-coded 8-field list, not a configurable value — in
particular the 30-field variant is impossible. -/
theorem c6_counterexample :
    (calculate_completion_score []).2.2.2.2 = fields_to_check ∧
    fields_to_check.length = 8 ∧ ¬ fields_to_check.length = 30 := by
  exact ⟨rfl, rfl, by decide⟩

/-! ## Claim C10 -/

/-- A string containing the alias marker is not empty. -/
theorem ne_empty_of_contains_alias (s : String) (h : pyContains s aliasMarker = true) :
    s ≠ "" := by
  intro he
  subst he
  exact absurd h (by decide)

/-- The per-field filled test is unchanged by removing the
malformed-`Symptoms_` special case. -/
theorem fieldMark_eq_noAlias (row : Row) (f : String) :
    fieldMark row f = fieldMarkNoAlias row f := by
  unfold fieldMark fieldMarkNoAlias
  cases hv : rowGet row f with
  | str s =>
    simp only [pdIsna, Bool.false_eq_true, if_false]
    by_cases hc : (f == "Symptoms_" && pyContains s aliasMarker) = true
    · rw [if_pos hc]
      have hs : s ≠ "" := ne_empty_of_contains_alias s (Bool.and_elim_right hc)
      simp [pyNeEmptyStr, hs]
    · rw [if_neg hc]
  | pyNone => rfl
  | nan => rfl
  | timeOfDay h m s => simp [pdIsna, pyNeEmptyStr]
  | intVal n => simp [pdIsna, pyNeEmptyStr]
  | dateVal d => simp [pdIsna, pyNeEmptyStr]

/-- The scorer's loop is unchanged by removing the special case. -/
theorem scoreFields_eq_noAlias (row : Row) (fs : List String) :
    scoreFields row fs = scoreFieldsNoAlias row fs := by
  induction fs with
  | nil => rfl
  | cons f rest ih =>
    simp only [scoreFields, scoreFieldsNoAlias, ih, fieldMark_eq_noAlias]

/-- C10: removing the `Symptoms_` alias-marker branch never changes the
scorer's result — the value reaching that branch is a non-null string
containing the (non-empty) marker, hence non-empty, and is counted as
filled by the general check as well. -/
theorem c10_alias_branch_redundant (row : Row) :
    calculate_completion_score row = calculate_completion_score_noalias row := by
  unfold calculate_completion_score calculate_completion_score_noalias
  rw [scoreFields_eq_noAlias]

/-! ## Claim C4 -/

/-- C4: the source only reaches the `"Empty or NaN"` branch for the empty
string — a null (`None`) or `NaN` input is stringified first, `pd.isna`
of a string is always false, and the parse then fails with
`"Invalid format: None"` / `"Invalid format: nan"` instead. -/
theorem c4_null_empty_behaviour :
    parse_hh_mm_ss .pyNone = (none, some "Invalid format: None") ∧
    parse_hh_mm_ss .nan = (none, some "Invalid format: nan") ∧
    parse_hh_mm_ss (.str "") = (none, some "Empty or NaN") := by
  refine ⟨by decide, by decide, by decide⟩

/-! ## Claim C5 -/

/-- The bounds check returns either a value with no error or no value
with an error. -/
theorem validateTimeValues_shape (h m s : Int) (t : String) :
    (∃ n, validateTimeValues h m s t = (some n, none)) ∨
    (∃ e, validateTimeValues h m s t = (none, some e)) := by
  unfold validateTimeValues
  split
  · exact Or.inr ⟨_, rfl⟩
  · exact Or.inl ⟨_, rfl⟩

/-- Every normal return of the parser's `try`-body is either a value with
no error or no value with an error. -/
theorem parse_body_ok_shape (t : CellVal) (r : Option Int × Option String)
    (h : parse_hh_mm_ss_body t = .ok r) :
    (∃ n, r = (some n, none)) ∨ (∃ e, r = (none, some e)) := by
  unfold parse_hh_mm_ss_body at h
  dsimp only at h
  split at h
  · injection h with h2
    exact Or.inr ⟨_, h2.symm⟩
  · split at h
    · split at h
      · cases h
      · split at h
        · cases h
        · injection h with h2
          subst h2
          exact validateTimeValues_shape _ _ _ _
    · split at h
      · cases h
      · split at h
        · cases h
        · split at h
          · cases h
          · injection h with h2
            subst h2
            exact validateTimeValues_shape _ _ _ _
    · injection h with h2
      exact Or.inr ⟨_, h2.symm⟩

/-- C5: the duration parser never propagates an exception: for every
input it returns either parsed seconds with no error or no value with an
error message; a raised exception in the body is caught and wrapped into
the descriptive `"Error parsing ..."` string — in particular for the
non-numeric input `"a:b"`. -/
theorem c5_no_exception (t : CellVal) (e : String) :
    ((∃ n, parse_hh_mm_ss t = (some n, none)) ∨
     (∃ msg, parse_hh_mm_ss t = (none, some msg))) ∧
    (parse_hh_mm_ss_body t = .error e →
      parse_hh_mm_ss t = (none, some ("Error parsing " ++ pyStrOf t ++ ": " ++ e))) ∧
    parse_hh_mm_ss (.str "a:b") =
      (none, some "Error parsing a:b: invalid literal for int() with base 10: \x27a\x27") := by
  refine ⟨?_, ?_, by decide⟩
  · cases hb : parse_hh_mm_ss_body t with
    | error e2 =>
      exact Or.inr ⟨_, by unfold parse_hh_mm_ss; rw [hb]⟩
    | ok r =>
      have hr : parse_hh_mm_ss t = r := by unfold parse_hh_mm_ss; rw [hb]
      rcases parse_body_ok_shape t r hb with ⟨n, hn⟩ | ⟨msg, hmsg⟩
      · exact Or.inl ⟨n, by rw [hr, hn]⟩
      · exact Or.inr ⟨msg, by rw [hr, hmsg]⟩
  · intro he
    unfold parse_hh_mm_ss
    rw [he]

/-- Witness for C5 at the concrete failing input `"a:b"`. -/
theorem c5_no_exception_witness :
    parse_hh_mm_ss_body (.str "a:b")
        = .error "invalid literal for int() with base 10: \x27a\x27" ∧
    parse_hh_mm_ss (.str "a:b")
        = (none, some ("Error parsing " ++ pyStrOf (.str "a:b") ++ ": "
            ++ "invalid literal for int() with base 10: \x27a\x27")) :=
  ⟨by decide,
   (c5_no_exception (.str "a:b") "invalid literal for int() with base 10: \x27a\x27").2.1
     (by decide)⟩

/-! ## Claim C3 -/

/-- For a non-empty text input, the parser's body is the split on `':'`
followed by integer conversion (the empty/NaN branch is skipped). -/
theorem parse_body_nonempty (s : String) (hs : s ≠ "") :
    parse_hh_mm_ss_body (.str s) =
      match pySplit s ':' with
      | [a, b] =>
        match pyIntParse a with
        | .error e => .error e
        | .ok minutes =>
          match pyIntParse b with
          | .error e => .error e
          | .ok seconds => .ok (validateTimeValues 0 minutes seconds s)
      | [a, b, c] =>
        match pyIntParse a with
        | .error e => .error e
        | .ok hours =>
          match pyIntParse b with
          | .error e => .error e
          | .ok minutes =>
            match pyIntParse c with
            | .error e => .error e
            | .ok seconds => .ok (validateTimeValues hours minutes seconds s)
      | _ => .ok (none, some ("Invalid format: " ++ s)) := by
  have hbeq : (s == "") = false := beq_eq_false_iff_ne.mpr hs
  unfold parse_hh_mm_ss_body
  simp [isTimeInstance, pdIsnaStr, pyStrOf, hbeq]

/-- C3 (amended): for every *non-empty* text input, the parser splits on
`':'`: part counts other than 2 and 3 give `"Invalid format: <text>"`;
two integer parts are minutes:seconds with hours = 0 and three are
hours:minutes:seconds, rejected as `"Invalid time values: <text>"` exactly
when a component is negative or minutes/seconds reach 60 (hours
unbounded), and otherwise summed to total seconds with no error; in
particular `"12:34"` parses to 754 and `"1:02:03"` to 3723.  (The empty
string is the exception: it takes the `"Empty or NaN"` branch.) -/
theorem c3_amended_text_parsing (s : String) (hs : s ≠ "") :
    ((pySplit s ':').length ≠ 2 → (pySplit s ':').length ≠ 3 →
       parse_hh_mm_ss (.str s) = (none, some ("Invalid format: " ++ s))) ∧
    (∀ a b m sec, pySplit s ':' = [a, b] →
       pyIntParse a = .ok m → pyIntParse b = .ok sec →
       parse_hh_mm_ss (.str s) =
         (if m < 0 ∨ sec < 0 ∨ 60 ≤ m ∨ 60 ≤ sec then
            (none, some ("Invalid time values: " ++ s))
          else (some (m * 60 + sec), none))) ∧
    (∀ a b c hh m sec, pySplit s ':' = [a, b, c] →
       pyIntParse a = .ok hh → pyIntParse b = .ok m → pyIntParse c = .ok sec →
       parse_hh_mm_ss (.str s) =
         (if hh < 0 ∨ m < 0 ∨ sec < 0 ∨ 60 ≤ m ∨ 60 ≤ sec then
            (none, some ("Invalid time values: " ++ s))
          else (some (hh * 3600 + m * 60 + sec), none))) ∧
    parse_hh_mm_ss (.str "12:34") = (some 754, none) ∧
    parse_hh_mm_ss (.str "1:02:03") = (some 3723, none) := by
  refine ⟨?_, ?_, ?_, by decide, by decide⟩
  · intro h2 h3
    unfold parse_hh_mm_ss
    rw [parse_body_nonempty s hs]
    rcases hsp : pySplit s ':' with _ | ⟨a, _ | ⟨b, _ | ⟨c, _ | ⟨d, t⟩⟩⟩⟩ <;>
      simp [hsp] at h2 h3 ⊢
  · intro a b m sec hsp hm hsec
    unfold parse_hh_mm_ss
    rw [parse_body_nonempty s hs, hsp]
    dsimp only
    rw [hm, hsec]
    dsimp only
    unfold validateTimeValues
    by_cases hc : m < 0 ∨ sec < 0 ∨ 60 ≤ m ∨ 60 ≤ sec
    · rw [if_pos hc, if_pos (by omega)]
    · rw [if_neg hc, if_neg (by omega)]
      simp
  · intro a b c hh m sec hsp ha hb hc
    unfold parse_hh_mm_ss
    rw [parse_body_nonempty s hs, hsp]
    dsimp only
    rw [ha, hb, hc]
    dsimp only
    unfold validateTimeValues
    rfl

/-- Witness for C3 (amended) at the concrete input `"12:34"`. -/
theorem c3_amended_witness :
    "12:34" ≠ "" ∧ pySplit "12:34" ':' = ["12", "34"] ∧
    pyIntParse "12" = .ok 12 ∧ pyIntParse "34" = .ok 34 ∧
    parse_hh_mm_ss (.str "12:34") =
      (if (12:Int) < 0 ∨ (34:Int) < 0 ∨ (60:Int) ≤ 12 ∨ (60:Int) ≤ 34 then
         (none, some ("Invalid time values: " ++ "12:34"))
       else (some (12 * 60 + 34), none)) :=
  ⟨by decide, by decide, by decide, by decide,
   (c3_amended_text_parsing "12:34" (by decide)).2.1 "12" "34" 12 34
     (by decide) (by decide) (by decide)⟩

/-- Counterexample to C3 as stated: the empty string is a text input
whose part count is 1 (neither 2 nor 3), yet the parser answers
`"Empty or NaN"`, not `"Invalid format: "`. -/
theorem c3_counterexample_empty_string :
    (pySplit "" ':').length = 1 ∧
    parse_hh_mm_ss (.str "") ≠ (none, some ("Invalid format: " ++ "")) ∧
    parse_hh_mm_ss (.str "") = (none, some "Empty or NaN") := by
  refine ⟨by decide, by decide, by decide⟩

/-- A map whose function fixes every member of the list is the
identity. -/
theorem map_self_of_mem {α : Type} (f : α → α) (l : List α)
    (h : ∀ x ∈ l, f x = x) : l.map f = l := by
  induction l with
  | nil => rfl
  | cons a t ih =>
    simp only [List.map_cons, h a (by simp)]
    rw [ih (fun x hx => h x (by simp [hx]))]

/-! ## Claim C7 -/

/-- C7 (amended): the date-range filter is the one engine operation that
writes into its input: when the date column exists, the post-call source
frame is the input with that column coerced in place; when the column is
missing (the filter fails open before assigning) the source is untouched;
and when every date cell is already coerced (a timestamp or `NaT`) the
in-place write is invisible, so the source is unchanged.  The other
operations are read-only by construction. -/
theorem c7_amended_date_filter_mutates (df : DataFrame) (sd ed : Int) :
    ("ConsultationCreatedDate" ∈ df.cols →
       (filter_by_date_range df sd ed).1
         = { cols := df.cols, rows := df.rows.map coerceDateRow }) ∧
    ("ConsultationCreatedDate" ∉ df.cols →
       (filter_by_date_range df sd ed).1 = df) ∧
    ((∀ r ∈ df.rows, ∀ p ∈ r, p.1 = "ConsultationCreatedDate" →
          to_datetime_coerce p.2 = p.2) →
       (filter_by_date_range df sd ed).1 = df) := by
  refine ⟨?_, ?_, ?_⟩
  · intro hcol
    unfold filter_by_date_range filter_by_date_range_body
    rw [if_pos hcol]
  · intro hcol
    unfold filter_by_date_range filter_by_date_range_body
    rw [if_neg hcol]
  · intro hfix
    have hrows : df.rows.map coerceDateRow = df.rows := by
      apply map_self_of_mem
      intro r hr
      unfold coerceDateRow
      apply map_self_of_mem
      intro p hp
      by_cases hcd : p.1 = "ConsultationCreatedDate"
      · rw [if_pos hcd, hfix r hr p hp hcd]
      · rw [if_neg hcd]
    by_cases hcol : "ConsultationCreatedDate" ∈ df.cols
    · unfold filter_by_date_range filter_by_date_range_body
      rw [if_pos hcol]
      dsimp only
      rw [hrows]
    · unfold filter_by_date_range filter_by_date_range_body
      rw [if_neg hcol]

/-- Witness for C7 (amended) on a frame whose date column is already
coerced: the call leaves the source unchanged. -/
theorem c7_amended_witness :
    (∀ r ∈ dfCoercedDate.rows, ∀ p ∈ r, p.1 = "ConsultationCreatedDate" →
        to_datetime_coerce p.2 = p.2) ∧
    (filter_by_date_range dfCoercedDate 1 2).1 = dfCoercedDate :=
  ⟨by decide, (c7_amended_date_filter_mutates dfCoercedDate 1 2).2.2 (by decide)⟩

/-- Counterexample to C7 as stated: on a frame whose date column holds a
raw date string, the date filter leaves the source changed (the string
has been coerced to a timestamp in place). -/
theorem c7_counterexample_mutation :
    (filter_by_date_range dfRawDate 0 0).1 ≠ dfRawDate := by
  decide

/-! ## Claim C8 -/

/-- C8: whenever the body of the date-range filter or of the
patient-search filter raises (here: a required column is missing), the
filter fails open — it returns the original input frame unchanged and
unfiltered, and surfaces the error as a warning; moreover the date filter
body fails exactly when the date column is absent. -/
theorem c8_filters_fail_open (df : DataFrame) (sd ed : Int)
    (patient_id patient_name e1 e2 : String) :
    (filter_by_date_range_body df sd ed = .error e1 →
       filter_by_date_range df sd ed
         = (df, df, ["Error filtering by date: " ++ e1])) ∧
    ("ConsultationCreatedDate" ∉ df.cols →
       filter_by_date_range df sd ed
         = (df, df, ["Error filtering by date: \x27ConsultationCreatedDate\x27"])) ∧
    ("ConsultationCreatedDate" ∈ df.cols →
       ∀ e, filter_by_date_range_body df sd ed ≠ .error e) ∧
    (filter_by_patient_search_body df patient_id patient_name = .error e2 →
       filter_by_patient_search df patient_id patient_name
         = (df, ["Error filtering by patient search: " ++ e2])) := by
  refine ⟨?_, ?_, ?_, ?_⟩
  · intro he
    unfold filter_by_date_range
    rw [he]
  · intro hcol
    unfold filter_by_date_range filter_by_date_range_body
    rw [if_neg hcol]
    rfl
  · intro hcol e
    unfold filter_by_date_range_body
    rw [if_pos hcol]
    intro hc
    cases hc
  · intro he
    unfold filter_by_patient_search
    rw [he]

/-- Witness for C8 on a frame lacking both columns. -/
theorem c8_filters_fail_open_witness :
    filter_by_date_range dfNoSuchCols 0 0
      = (dfNoSuchCols, dfNoSuchCols,
         ["Error filtering by date: \x27ConsultationCreatedDate\x27"]) ∧
    filter_by_patient_search dfNoSuchCols "abc" ""
      = (dfNoSuchCols, ["Error filtering by patient search: \x27PatientId\x27"]) :=
  ⟨(c8_filters_fail_open dfNoSuchCols 0 0 "abc" "" "" "").2.1 (by decide),
   (c8_filters_fail_open dfNoSuchCols 0 0 "abc" "" "" "\x27PatientId\x27").2.2.2
     (by decide)⟩

/-! ## Claim C9 -/

/-- The aggregation loop accumulates exactly the sum and the count of the
successfully parsed durations, whatever the starting row number. -/
theorem avgTimeLoop_spec (rows : List Row) (i : Nat) :
    (avgTimeLoop rows i).1 = (successSeconds rows).sum ∧
    (avgTimeLoop rows i).2.1 = (successSeconds rows).length := by
  induction rows generalizing i with
  | nil => exact ⟨rfl, rfl⟩
  | cons r rest ih =>
    obtain ⟨ih1, ih2⟩ := ih (i + 1)
    unfold avgTimeLoop successSeconds
    unfold successSeconds at ih1 ih2
    rw [List.filterMap_cons]
    rcases hp : parse_hh_mm_ss (rowGetD r "HH_MM_SS" (.str "")) with ⟨os, oe⟩
    cases os with
    | some sv =>
      dsimp only
      rw [List.sum_cons, List.length_cons, ih1, ih2]
      exact ⟨by omega, rfl⟩
    | none =>
      cases oe with
      | some e => exact ⟨ih1, ih2⟩
      | none => exact ⟨ih1, ih2⟩

/-- C9: the reported count is the number of rows whose duration parse
succeeded; when at least one succeeded, the average duration equals the
sum of the parsed seconds divided by their count, formatted as two
zero-padded components `minutes:seconds` with the total minutes
unbounded (hours folded in, never re-expanded to `HH:MM:SS`); when none
succeeded it is `"00:00"` with the explanatory no-valid-entries note among
the messages, never an undefined value. -/
theorem c9_average_time (df : DataFrame) :
    (calculate_average_consultation_time df).2.1 = (successSeconds df.rows).length ∧
    (successSeconds df.rows ≠ [] →
       (calculate_average_consultation_time df).1 =
         pad2Int (((successSeconds df.rows).sum : ℚ)
             / ((successSeconds df.rows).length : ℚ) / 60).floor
           ++ ":" ++
         pad2Int ((((successSeconds df.rows).sum : ℚ)
               / ((successSeconds df.rows).length : ℚ))
             - 60 * ((((successSeconds df.rows).sum : ℚ)
               / ((successSeconds df.rows).length : ℚ) / 60).floor : ℚ)).floor) ∧
    (successSeconds df.rows = [] →
       (calculate_average_consultation_time df).1 = "00:00" ∧
       "No valid time entries found in HH_MM_SS column."
         ∈ (calculate_average_consultation_time df).2.2) := by
  obtain ⟨h1, h2⟩ := avgTimeLoop_spec df.rows 0
  unfold calculate_average_consultation_time
  dsimp only
  rw [h1, h2]
  refine ⟨?_, ?_, ?_⟩
  · split <;> rfl
  · intro hne
    rw [if_pos (List.length_pos.mpr hne)]
  · intro heq
    rw [heq]
    dsimp only [List.length_nil]
    rw [if_neg (by omega)]
    exact ⟨rfl, by simp⟩

/-- Witness for C9 on a frame with a single 90-minute record: the average
is displayed as `"90:00"`. -/
theorem c9_average_time_witness :
    successSeconds dfNinety.rows ≠ [] ∧
    (calculate_average_consultation_time dfNinety).1 = "90:00" := by
  have h := (c9_average_time dfNinety).2.1 (by decide)
  rw [(by decide : successSeconds dfNinety.rows = [5400])] at h
  refine ⟨by decide, ?_⟩
  rw [h]
  have hm : ((([5400] : List Int).sum : ℚ) / (([5400] : List Int).length : ℚ) / 60).floor
      = (90 : Int) := by
    have hq : ((([5400] : List Int).sum : ℚ) / (([5400] : List Int).length : ℚ) / 60)
        = ((90 : Int) : ℚ) := by
      push_cast [List.sum_cons, List.sum_nil]
      norm_num
    rw [hq, rat_floor_eq, Int.floor_intCast]
  rw [hm]
  have hs : (((([5400] : List Int).sum : ℚ) / (([5400] : List Int).length : ℚ))
      - 60 * (((90 : Int) : ℚ))).floor = (0 : Int) := by
    have hq : (((([5400] : List Int).sum : ℚ) / (([5400] : List Int).length : ℚ))
        - 60 * (((90 : Int) : ℚ))) = ((0 : Int) : ℚ) := by
      push_cast [List.sum_cons, List.sum_nil]
      norm_num
    rw [hq, rat_floor_eq, Int.floor_intCast]
  rw [hs]
  decide

end Consultation
